import Mathlib

/-!
# Verification of the essdiffraction powder-reduction spec

Shallow embedding of the parts of the scipp/essdiffraction repository that
the claims concern: the vanadium peak-fitting and peak-removal pipeline, the
peak-removal diagnostic plot logic, the xye and CIF output writers, and the
vanadium normalization with its zero-divisor mask.

The repository's shippable source here consists of notebooks (embedded from
their cells) plus thin wrapper modules whose implementation files are not in
the source tree; the latter are modelled from the specification, each such
definition marked `Modelled from the spec:` in its doc comment.

Numbers are embedded as rationals (the code computes with floating-point
arrays; overflow and rounding are not at issue in any claim).  The external
non-linear least-squares optimizer and the transcendental exponential are
passed in as oracle parameters, since both are external-library numerics
that the spec explicitly delegates.
-/

namespace EssDiffraction

/-- A scipp data array restricted to what the claims need: a 1-d coordinate
(d-spacing bin centers), values, and optional variances. -/
structure DataArray where
  coords : List ℚ
  values : List ℚ
  variances : Option (List ℚ)
  deriving Repr, DecidableEq

/-- `sc.values(da)`: the same data array with the variances dropped. -/
def sc_values (da : DataArray) : DataArray :=
  { da with variances := none }

/-! ## Peak models

Modelled from the spec: the fitted model is "a gaussian peak plus a
polynomial (linear or quadratic) background"; the notebook states the
wrapper "selects appropriate models for peaks (gaussian) and backgrounds
(linear and quadratic)". -/

/-- A gaussian peak `amplitude * exp(-(x - loc)^2 / (2 * scale^2))`. -/
structure GaussianPeak where
  amplitude : ℚ
  loc : ℚ
  scale : ℚ
  deriving Repr, DecidableEq

/-- Evaluate the gaussian at `x`, with the exponential supplied as the
oracle `expQ` (an external transcendental routine). -/
def GaussianPeak.eval (expQ : ℚ → ℚ) (g : GaussianPeak) (x : ℚ) : ℚ :=
  g.amplitude * expQ (-((x - g.loc) ^ 2) / (2 * g.scale ^ 2))

/-- The polynomial background: linear or quadratic. -/
inductive Background where
  | linear (c0 c1 : ℚ)
  | quadratic (c0 c1 c2 : ℚ)
  deriving Repr, DecidableEq

/-- Evaluate the polynomial background at `x`. -/
def Background.eval : Background → ℚ → ℚ
  | .linear c0 c1, x => c0 + c1 * x
  | .quadratic c0 c1 c2, x => c0 + c1 * x + c2 * x ^ 2

/-- The candidate background shapes the wrapper tries for vanadium. -/
inductive BackgroundShape where
  | linear
  | quadratic
  deriving Repr, DecidableEq

/-- The full fitted model: gaussian peak plus polynomial background. -/
structure PeakModelFit where
  peak : GaussianPeak
  bkg : Background
  deriving Repr, DecidableEq

/-- Evaluate the fitted model (peak + background) at `x`. -/
def PeakModelFit.eval (expQ : ℚ → ℚ) (m : PeakModelFit) (x : ℚ) : ℚ :=
  m.peak.eval expQ x + m.bkg.eval x

/-- Outcome of one invocation of the external non-linear least-squares
optimizer on one window with one candidate background shape. -/
inductive OptOutcome where
  | converged (best : PeakModelFit)
  | failed (message : String)
  deriving Repr, DecidableEq

/-- The result record of one per-peak fit.

Modelled from the spec: every fit, successful or not, yields a record
carrying a boolean `success` flag, a `message` string, the fit `window`,
and the best-fit model when one exists. -/
structure FitResult where
  success : Bool
  message : String
  window : ℚ × ℚ
  best : Option PeakModelFit
  deriving Repr, DecidableEq

/-- An external optimizer: given a fit window and a candidate background
shape, either converges to a best-fit model or fails with a message. -/
def Optimizer : Type := (ℚ × ℚ) → BackgroundShape → OptOutcome

/-- Modelled from the spec: fit one peak.  The fit window is centered on the
estimated peak position (half-width `wh`); within it, a gaussian-plus-
polynomial-background model is fitted by non-linear least squares (the
external `optimizer`), trying a linear background and falling back to a
quadratic one; the outcome is recorded as a `FitResult`, never raised as an
exception. -/
def fit_peak (optimizer : Optimizer) (wh : ℚ) (estimate : ℚ) : FitResult :=
  let window : ℚ × ℚ := (estimate - wh, estimate + wh)
  match optimizer window .linear with
  | .converged best =>
      { success := true, message := "success", window := window, best := some best }
  | .failed _ =>
      match optimizer window .quadratic with
      | .converged best =>
          { success := true, message := "success", window := window, best := some best }
      | .failed msg =>
          { success := false, message := msg, window := window, best := none }

/-- Modelled from the spec: `fit_peaks` / `fit_vanadium_peaks` performs one
per-window fit for every estimated peak position. -/
def fit_peaks (optimizer : Optimizer) (wh : ℚ) (estimates : List ℚ) : List FitResult :=
  estimates.map (fit_peak optimizer wh)

/-- The value at coordinate `x` after subtracting, from the original value
`v`, each successfully fitted model whose window contains `x`. -/
def removedValue (expQ : ℚ → ℚ) (results : List FitResult) (x v : ℚ) : ℚ :=
  results.foldl
    (fun acc r =>
      if r.success then
        match r.best with
        | some m =>
            if r.window.1 ≤ x ∧ x < r.window.2 then acc - m.eval expQ x else acc
        | none => acc
      else acc)
    v

/-- What one fit result contributes at coordinate `x`: the fitted model's
value when the fit succeeded and its window contains `x`, else zero. -/
def modelContribution (expQ : ℚ → ℚ) (x : ℚ) (r : FitResult) : ℚ :=
  if r.success then
    match r.best with
    | some m => if r.window.1 ≤ x ∧ x < r.window.2 then m.eval expQ x else 0
    | none => 0
  else 0

/-- Modelled from the spec: `scippneutron.peaks.remove_peaks` evaluates each
successfully fitted model over its window and subtracts it from the data;
the variances (when present) are carried through unchanged. -/
def remove_peaks (expQ : ℚ → ℚ) (data : DataArray) (results : List FitResult) : DataArray :=
  { coords := data.coords
    values := List.zipWith (removedValue expQ results) data.coords data.values
    variances := data.variances }

/-- The notebook cell computing the incoherent spectrum:
`incoherent = scn.peaks.remove_peaks(sc.values(to_fit), fit_results)`
followed by restoring the bin-edge coordinate,
`incoherent.coords['dspacing'] = peak_histogram.coords['dspacing']`. -/
def incoherent_spectrum (expQ : ℚ → ℚ) (to_fit : DataArray)
    (fit_results : List FitResult) (edge_coords : List ℚ) : DataArray :=
  let base := remove_peaks expQ (sc_values to_fit) fit_results
  { base with coords := edge_coords }

/-! ## The peak-removal diagnostic (embedded from the notebook cell)

`peak_removal_diagnostic` in `vanadium_processing.ipynb` draws, per fit
result, a dashed initial-estimate line colored
`"black" if result.success else "red"`, a fit-window rectangle with
facecolor `"black" if result.success else "red"`, and — only
`if not result.success` — a text annotation
`result.message.split(":", 1)[0]`. -/

/-- Python's `message.split(":", 1)[0]`: the characters before the first
colon (the whole string when there is no colon). -/
def splitColonHead : List Char → List Char
  | [] => []
  | c :: cs => if c = ':' then [] else c :: splitColonHead cs

/-- Color of the dashed initial-estimate line for one fit result, from
`ax.axvline(..., color="black" if result.success else "red", ...)`. -/
def estimateLineColor (result : FitResult) : String :=
  if result.success then "black" else "red"

/-- What the diagnostic draws for one fit window: the rectangle facecolor
and the optional failure-reason annotation. -/
structure WindowDrawing where
  facecolor : String
  failureText : Option String
  deriving Repr, DecidableEq

/-- The fit-window drawing for one fit result, from
`facecolor="black" if result.success else "red"` and
`if not result.success: ax.text(..., result.message.split(":", 1)[0])`. -/
def windowDrawing (result : FitResult) : WindowDrawing :=
  { facecolor := if result.success then "black" else "red"
    failureText :=
      if result.success then none
      else some (String.mk (splitColonHead result.message.data)) }

/-- Spec-side notion for the diagnostic claim: a string truncated at its
first colon. -/
def truncatedAtFirstColon (s : String) : String :=
  String.mk (s.data.takeWhile (fun c => c != ':'))

/-! ## xye output (embedded from the POWGEN notebook cell) -/

/-- Midpoints of a list of bin edges. -/
def midpoints (edges : List ℚ) : List ℚ :=
  List.zipWith (fun a b => (a + b) / 2) edges edges.tail

/-- A histogrammed 1-d result: d-spacing bin edges, binned intensities, and
their uncertainties (standard deviations). -/
structure Histogram1d where
  edges : List ℚ
  values : List ℚ
  stddevs : List ℚ
  deriving Repr, DecidableEq

/-- Modelled from the spec: `scn.io.save_xye` writes a plain-text file with
three columns x, y, e — one row per data point. -/
def scn_io_save_xye (coord values stddevs : List ℚ) : List (ℚ × ℚ × ℚ) :=
  List.zipWith (fun x ye => (x, ye)) coord (List.zipWith (fun y e => (y, e)) values stddevs)

/-- The `save_xye` provider from the POWGEN notebook: the reduced data is
histogrammed (`reduced_data.hist()`, here already the `Histogram1d`), the
d-spacing coordinate is replaced by the bin-edge midpoints
(`sc.midpoints(data.coords["dspacing"])`), and the three-column file is
written with `scn.io.save_xye(out_filename, data, coord="dspacing")`. -/
def save_xye (reduced : Histogram1d) : List (ℚ × ℚ × ℚ) :=
  scn_io_save_xye (midpoints reduced.edges) reduced.values reduced.stddevs

/-! ## CIF output -/

/-- Modelled from the spec: the reduced time-of-flight result prepared for
CIF output, exposing author and comment metadata fields, plus the reduced
data block (already rendered to text rows). -/
structure ReducedTofCIF where
  authors : List String
  comment : String
  dataRows : List String
  deriving Repr, DecidableEq

/-- Modelled from the spec: `cif_data.save` renders a CIF-formatted file —
the comment as a header comment line, one audit-author line per author, and
the data block. -/
def ReducedTofCIF.save (c : ReducedTofCIF) : List String :=
  ("# " ++ c.comment)
    :: (c.authors.map (fun a => "_audit_contact_author.name " ++ a)
        ++ c.dataRows)

/-- Assigning `cif_data.comment = ...` before saving. -/
def ReducedTofCIF.with_comment (c : ReducedTofCIF) (m : String) : ReducedTofCIF :=
  { c with comment := m }

/-! ## Vanadium normalization -/

/-- Modelled from the spec: vanadium normalization divides the sample
intensity by the vanadium intensity, bin by bin. -/
def normalize_by_vanadium (sample vanadium : List ℚ) : List ℚ :=
  List.zipWith (fun s v => s / v) sample vanadium

/-- Modelled from the spec: the normalized intensity `IofDspacing` — the
sample intensity divided by the vanadium spectrum whose coherent-scattering
peaks were removed beforehand. -/
def iofDspacing (expQ : ℚ → ℚ) (sample : List ℚ) (vanadium : DataArray)
    (fit_results : List FitResult) : List ℚ :=
  normalize_by_vanadium sample (remove_peaks expQ (sc_values vanadium) fit_results).values

/-- Normalized output with the `zero_vanadium` mask.  A `none` value models
a non-finite (NaN or INF) bin, which division by a zero vanadium intensity
would produce. -/
structure MaskedData where
  values : List (Option ℚ)
  zero_vanadium : List Bool
  deriving Repr, DecidableEq

/-- Modelled from the spec: the workflow masks out, under the mask name
`zero_vanadium`, the bins whose vanadium divisor is zero and which would
otherwise contain NaN or INF after the division. -/
def normalize_with_zero_vanadium_mask (sample vanadium : List ℚ) : MaskedData :=
  { values := List.zipWith (fun s v => if v = 0 then none else some (s / v)) sample vanadium
    zero_vanadium := vanadium.map (fun v => decide (v = 0)) }

/-! ## Theoretical vanadium peak positions -/

/-- The body-centered-cubic vanadium lattice constant in ångström.
Modelled from the spec: the estimates derive from "vanadium's
crystal-lattice geometry". -/
def vanadium_lattice_a : ℚ := 30272 / 10000

/-- The squared lattice constant. -/
def vanadium_a_sq : ℚ := vanadium_lattice_a ^ 2

/-- Squared d-spacing of the (h,k,l) reflection of the cubic lattice:
`(a / sqrt(h^2 + k^2 + l^2))^2`. -/
def dspacingSq (h k l : ℕ) : ℚ :=
  vanadium_a_sq / ((h ^ 2 + k ^ 2 + l ^ 2 : ℕ) : ℚ)

/-- Modelled from the spec: `theoretical_vanadium_dspacing(hkl_range, min_d)`
— the d-spacings of all hkl reflections with indices up to `hkl_range`
whose d-spacing is at least `min_d`, represented here by squared d-spacings
(`min_d_sq` being the square of `min_d`). -/
def theoretical_vanadium_dspacingSq (hkl_range : ℕ) (min_d_sq : ℚ) : List ℚ :=
  (List.range (hkl_range + 1)).flatMap (fun h =>
    (List.range (hkl_range + 1)).flatMap (fun k =>
      List.filterMap (fun l =>
        if h + k + l ≠ 0 ∧ min_d_sq ≤ dspacingSq h k l then some (dspacingSq h k l)
        else none)
        (List.range (hkl_range + 1))))

/-- The peak estimates the vanadium-processing notebook passes to the fits:
derived from the lattice geometry alone; the measured spectrum about to be
fitted is not an input to their derivation. -/
def peak_estimates_for_fit (measured : DataArray) (hkl_range : ℕ) (min_d_sq : ℚ) : List ℚ :=
  theoretical_vanadium_dspacingSq hkl_range min_d_sq

/-- An always-failing optimizer, standing for a data set on which no fit
converges. -/
def failingOptimizer : Optimizer :=
  fun _ _ => .failed "Fit failed: optimal parameters not found"

/-- A fit result of a failed fit, as the diagnostic receives it. -/
def exampleFailedResult : FitResult :=
  { success := false
    message := "Fit failed: optimal parameters not found"
    window := (1, 2)
    best := none }

/-! ## Theorems -/

theorem splitColonHead_eq_takeWhile (l : List Char) :
    splitColonHead l = l.takeWhile (fun c => c != ':') := by
  induction l with
  | nil => rfl
  | cons c cs ih =>
      by_cases h : c = ':'
      · simp [splitColonHead, h, List.takeWhile_cons]
      · simp [splitColonHead, h, List.takeWhile_cons, ih]

theorem removedValue_eq_sub_sum (expQ : ℚ → ℚ) (results : List FitResult) (x v : ℚ) :
    removedValue expQ results x v = v - (results.map (modelContribution expQ x)).sum := by
  induction results generalizing v with
  | nil => simp [removedValue]
  | cons r rs ih =>
      unfold removedValue at ih ⊢
      rw [List.foldl_cons, ih]
      rcases hs : r.success with _ | _
      · simp [modelContribution, hs]
      · rcases hb : r.best with _ | m
        · simp [modelContribution, hs, hb]
        · by_cases hw : r.window.1 ≤ x ∧ x < r.window.2
          · simp [modelContribution, hs, hb, hw]
            try ring
          · simp [modelContribution, hs, hb, hw]
            try ring

/-- C1: for every estimated vanadium peak, the peak-removal utility fits,
within a window centered on that peak's position, a gaussian-peak-plus-
polynomial-background model (linear, falling back to quadratic) by the
external non-linear least-squares optimizer; each window's success or
failure is recorded in its fit result; and peak removal subtracts, at each
data point, the evaluated fitted models of the successful windows covering
it, producing the incoherent spectrum. -/
theorem vanadium_peak_fit_and_removal_spec (optimizer : Optimizer) (expQ : ℚ → ℚ)
    (wh : ℚ) (estimates : List ℚ) (data : DataArray) :
    (fit_peaks optimizer wh estimates).length = estimates.length
    ∧ fit_peaks optimizer wh estimates = estimates.map (fit_peak optimizer wh)
    ∧ (∀ est : ℚ,
        (fit_peak optimizer wh est).window = (est - wh, est + wh)
        ∧ ((fit_peak optimizer wh est).success = true ↔
            ∃ m : PeakModelFit, (fit_peak optimizer wh est).best = some m)
        ∧ ((fit_peak optimizer wh est).success = false ↔
            (∃ msg1, optimizer (est - wh, est + wh) .linear = .failed msg1)
            ∧ ∃ msg2, optimizer (est - wh, est + wh) .quadratic = .failed msg2))
    ∧ (remove_peaks expQ data (fit_peaks optimizer wh estimates)).values =
        List.zipWith
          (fun x v =>
            v - (((fit_peaks optimizer wh estimates).map (modelContribution expQ x)).sum))
          data.coords data.values := by
  refine ⟨by simp [fit_peaks], rfl, ?_, ?_⟩
  · intro est
    rcases h1 : optimizer (est - wh, est + wh) .linear with m1 | s1 <;>
      rcases h2 : optimizer (est - wh, est + wh) .quadratic with m2 | s2 <;>
      simp [fit_peak, h1, h2]
  · unfold remove_peaks
    simp only
    rw [show removedValue expQ (fit_peaks optimizer wh estimates) =
        fun x v =>
          v - (((fit_peaks optimizer wh estimates).map (modelContribution expQ x)).sum) from
      funext fun x => funext fun v => removedValue_eq_sub_sum expQ _ x v]

/-- C2: a per-peak fit that fails to converge still returns a `FitResult`
record with `success = false` and the optimizer's failure message; and the
diagnostic caller distinguishes outcomes only through `result.success` and
`result.message` (two results agreeing on those fields are drawn
identically). -/
theorem fit_failure_returns_result (optimizer : Optimizer) (wh est : ℚ) (msg1 msg2 : String)
    (h1 : optimizer (est - wh, est + wh) .linear = .failed msg1)
    (h2 : optimizer (est - wh, est + wh) .quadratic = .failed msg2) :
    (fit_peak optimizer wh est).success = false
    ∧ (fit_peak optimizer wh est).message = msg2
    ∧ ∀ r1 r2 : FitResult, r1.success = r2.success → r1.message = r2.message →
        estimateLineColor r1 = estimateLineColor r2 ∧ windowDrawing r1 = windowDrawing r2 := by
  refine ⟨by simp [fit_peak, h1, h2], by simp [fit_peak, h1, h2], ?_⟩
  intro r1 r2 hs hm
  simp [estimateLineColor, windowDrawing, hs, hm]

theorem fit_failure_returns_result_witness :
    (fit_peak failingOptimizer 1 2).success = false
    ∧ (fit_peak failingOptimizer 1 2).message =
        "Fit failed: optimal parameters not found" := by
  have h := fit_failure_returns_result failingOptimizer 1 2
    "Fit failed: optimal parameters not found"
    "Fit failed: optimal parameters not found" rfl rfl
  exact ⟨h.1, h.2.1⟩

/-- C3: the peak-removal diagnostic draws the fit-window rectangle and the
initial-estimate line in red exactly when the fit failed (black otherwise),
and annotates exactly the failed fits with the fit's message truncated at
its first colon. -/
theorem diagnostic_marks_failed_fits (result : FitResult) :
    (estimateLineColor result = "red" ↔ result.success = false)
    ∧ (estimateLineColor result = "black" ↔ result.success = true)
    ∧ ((windowDrawing result).facecolor = "red" ↔ result.success = false)
    ∧ ((windowDrawing result).facecolor = "black" ↔ result.success = true)
    ∧ (windowDrawing result).failureText =
        (if result.success = true then none
         else some (truncatedAtFirstColon result.message)) := by
  rcases h : result.success with _ | _ <;>
    simp [estimateLineColor, windowDrawing, h, truncatedAtFirstColon,
      splitColonHead_eq_takeWhile]

/-- C4: `save_xye` writes one three-column row — d-spacing, intensity,
uncertainty (standard deviation) — per d-spacing bin of the histogram, the
d-spacing column holding the midpoints of the histogram's bin edges. -/
theorem save_xye_three_columns (hg : Histogram1d) (n : ℕ)
    (he : hg.edges.length = n + 1) (hv : hg.values.length = n)
    (hs : hg.stddevs.length = n) :
    (save_xye hg).length = n
    ∧ ∀ i (h1 : i < (save_xye hg).length) (h2 : i < hg.edges.length)
        (h3 : i + 1 < hg.edges.length) (h4 : i < hg.values.length)
        (h5 : i < hg.stddevs.length),
        (save_xye hg).get ⟨i, h1⟩ =
          ((hg.edges.get ⟨i, h2⟩ + hg.edges.get ⟨i + 1, h3⟩) / 2,
            hg.values.get ⟨i, h4⟩, hg.stddevs.get ⟨i, h5⟩) := by
  constructor
  · simp [save_xye, scn_io_save_xye, midpoints, he, hv, hs]
  · intro i h1 h2 h3 h4 h5
    simp [save_xye, scn_io_save_xye, midpoints, List.get_eq_getElem,
      List.getElem_zipWith, List.getElem_tail]

theorem save_xye_three_columns_witness :
    (save_xye (Histogram1d.mk [0, 2, 4] [10, 20] [1, 2])).length = 2
    ∧ (save_xye (Histogram1d.mk [0, 2, 4] [10, 20] [1, 2])).get ⟨0, by decide⟩ =
        (1, 10, 1) := by
  have h := save_xye_three_columns (Histogram1d.mk [0, 2, 4] [10, 20] [1, 2]) 2
    rfl rfl rfl
  exact ⟨h.1,
    (h.2 0 (by decide) (by decide) (by decide) (by decide) (by decide)).trans
      (by norm_num [List.get_eq_getElem])⟩

/-- C5: the reduced time-of-flight result is written as a CIF file whose
author and comment metadata fields can be set before saving, and the saved
file contains that metadata. -/
theorem cif_save_contains_metadata (c : ReducedTofCIF) (m : String) :
    ("# " ++ m) ∈ (c.with_comment m).save
    ∧ ∀ a : String, a ∈ c.authors →
        ("_audit_contact_author.name " ++ a) ∈ (c.with_comment m).save := by
  constructor
  · simp [ReducedTofCIF.save, ReducedTofCIF.with_comment]
  · intro a ha
    simp only [ReducedTofCIF.save, ReducedTofCIF.with_comment, List.mem_cons,
      List.mem_append, List.mem_map]
    exact Or.inr (Or.inl ⟨a, ha, rfl⟩)

theorem cif_save_contains_metadata_witness :
    ("# " ++ "Reduced with the DREAM workflow")
      ∈ ((ReducedTofCIF.mk ["Jane Doe"] "" []).with_comment
          "Reduced with the DREAM workflow").save
    ∧ ("_audit_contact_author.name " ++ "Jane Doe")
      ∈ ((ReducedTofCIF.mk ["Jane Doe"] "" []).with_comment
          "Reduced with the DREAM workflow").save := by
  have h := cif_save_contains_metadata (ReducedTofCIF.mk ["Jane Doe"] "" [])
    "Reduced with the DREAM workflow"
  exact ⟨h.1, h.2 "Jane Doe" (by simp)⟩

/-- C6: the vanadium-normalized intensity is the sample intensity divided,
bin by bin, by the vanadium intensity, and the divisor is the vanadium
spectrum after its coherent-scattering peaks were subtracted (each
successful fitted model's evaluation removed from the raw vanadium). -/
theorem normalized_intensity_spec (expQ : ℚ → ℚ) (sample : List ℚ)
    (vanadium : DataArray) (fit_results : List FitResult) (i : ℕ)
    (h1 : i < (iofDspacing expQ sample vanadium fit_results).length)
    (h2 : i < sample.length)
    (h3 : i < (remove_peaks expQ (sc_values vanadium) fit_results).values.length) :
    (iofDspacing expQ sample vanadium fit_results).get ⟨i, h1⟩ =
      sample.get ⟨i, h2⟩ /
        (remove_peaks expQ (sc_values vanadium) fit_results).values.get ⟨i, h3⟩
    ∧ (remove_peaks expQ (sc_values vanadium) fit_results).values =
        List.zipWith
          (fun x v => v - ((fit_results.map (modelContribution expQ x)).sum))
          vanadium.coords vanadium.values := by
  constructor
  · simp [iofDspacing, normalize_by_vanadium, List.get_eq_getElem, List.getElem_zipWith]
  · unfold remove_peaks sc_values
    simp only
    rw [show removedValue expQ fit_results =
        fun x v => v - ((fit_results.map (modelContribution expQ x)).sum) from
      funext fun x => funext fun v => removedValue_eq_sub_sum expQ fit_results x v]

theorem normalized_intensity_spec_witness :
    (iofDspacing (fun _ => 1) [6] (DataArray.mk [1] [2] none) []).get ⟨0, by decide⟩ =
      (3 : ℚ) := by
  have h := (normalized_intensity_spec (fun _ => 1) [6] (DataArray.mk [1] [2] none) []
    0 (by decide) (by decide) (by decide)).1
  exact h.trans (by norm_num [remove_peaks, sc_values, removedValue, List.get_eq_getElem])

/-- C8: the initial peak-position estimates are derived from vanadium's
crystal-lattice geometry alone — they are exactly the (squared) d-spacings
of the hkl reflections with indices up to `hkl_range` and d-spacing at
least the minimum — and do not depend on the measured data being fitted. -/
theorem theoretical_estimates_lattice_only (r : ℕ) (mdsq e : ℚ)
    (measured1 measured2 : DataArray) :
    peak_estimates_for_fit measured1 r mdsq = peak_estimates_for_fit measured2 r mdsq
    ∧ (e ∈ theoretical_vanadium_dspacingSq r mdsq ↔
        ∃ h k l : ℕ, h ≤ r ∧ k ≤ r ∧ l ≤ r ∧ h + k + l ≠ 0
          ∧ mdsq ≤ dspacingSq h k l ∧ e = dspacingSq h k l) := by
  refine ⟨rfl, ?_⟩
  simp only [theoretical_vanadium_dspacingSq, List.mem_flatMap, List.mem_filterMap,
    List.mem_range, Nat.lt_succ_iff, Option.ite_none_right_eq_some, Option.some_inj]
  constructor
  · rintro ⟨h, hh, k, ⟨hk, l, hl, ⟨hne, hge⟩, he⟩⟩
    exact ⟨h, k, l, hh, hk, hl, hne, hge, he.symm⟩
  · rintro ⟨h, k, l, hh, hk, hl, hne, hge, he⟩
    exact ⟨h, hh, k, ⟨hk, l, hl, ⟨hne, hge⟩, he.symm⟩⟩

/-- C9: every d-spacing bin whose vanadium divisor is zero — where division
would give a non-finite intensity — is flagged by the `zero_vanadium` mask,
and no bin is simultaneously unmasked and non-finite. -/
theorem zero_vanadium_mask_sound (sample vanadium : List ℚ) (i : ℕ)
    (h1 : i < (normalize_with_zero_vanadium_mask sample vanadium).values.length)
    (h2 : i < (normalize_with_zero_vanadium_mask sample vanadium).zero_vanadium.length)
    (h3 : i < vanadium.length) :
    ((normalize_with_zero_vanadium_mask sample vanadium).zero_vanadium.get ⟨i, h2⟩ = true
       ↔ vanadium.get ⟨i, h3⟩ = 0)
    ∧ ((normalize_with_zero_vanadium_mask sample vanadium).values.get ⟨i, h1⟩ = none
       ↔ vanadium.get ⟨i, h3⟩ = 0)
    ∧ ((normalize_with_zero_vanadium_mask sample vanadium).zero_vanadium.get ⟨i, h2⟩ = false
       → ((normalize_with_zero_vanadium_mask sample vanadium).values.get
            ⟨i, h1⟩).isSome = true) := by
  by_cases hz : vanadium[i] = 0 <;>
    simp [normalize_with_zero_vanadium_mask, List.get_eq_getElem, List.getElem_zipWith,
      List.getElem_map, hz]

theorem zero_vanadium_mask_sound_witness :
    ((normalize_with_zero_vanadium_mask [1, 2] [0, 4]).zero_vanadium.get
        ⟨0, by decide⟩ = true)
    ∧ ((normalize_with_zero_vanadium_mask [1, 2] [0, 4]).values.get
        ⟨0, by decide⟩ = none) := by
  have h := zero_vanadium_mask_sound [1, 2] [0, 4] 0 (by decide) (by decide) (by decide)
  exact ⟨h.1.mpr (by decide), h.2.1.mpr (by decide)⟩

/-- C10: the incoherent spectrum is computed by subtracting the fitted peak
models from the variance-stripped data (`sc.values`), so it carries no
variances. -/
theorem incoherent_carries_no_variances (expQ : ℚ → ℚ) (to_fit : DataArray)
    (fit_results : List FitResult) (edge_coords : List ℚ) :
    (sc_values to_fit).variances = none
    ∧ (incoherent_spectrum expQ to_fit fit_results edge_coords).values =
        (remove_peaks expQ (sc_values to_fit) fit_results).values
    ∧ (incoherent_spectrum expQ to_fit fit_results edge_coords).variances = none := by
  exact ⟨rfl, rfl, rfl⟩

end EssDiffraction
